import Mathlib

/-!
# Verification of the team-stats Slack reporting scripts

Shallow embedding of `src/slack-list-emojis.py` and `src/slack-msg-count.py`.
The Slack Web API client is modelled as explicit data: a channel-listing call
sequence is a `List (Except Unit ChanPage)` (each element is one response of
`users_conversations`, in the order the cursor loop consumes them; `.error`
models a `SlackApiError`), and a history call sequence is a
`List (Except Unit HistPage)` (responses of `conversations_history`).
Dictionaries (`Counter`, `user_counts`, `user_cache`) are modelled as
insertion-ordered association lists, matching Python dict semantics.
-/

set_option maxHeartbeats 1000000

/-- A reaction entry of a Slack message: `{name, count}`. -/
structure Reaction where
  name : String
  count : Nat
  deriving DecidableEq, Repr

/-- A Slack message as the scripts read it: every field is accessed with
`message.get(...)`, so every field is optional.  A missing `reactions` key is
`none`. -/
structure Message where
  user : Option String := none
  bot_id : Option String := none
  app_id : Option String := none
  ts : Option String := none
  thread_ts : Option String := none
  reactions : Option (List Reaction) := none
  deriving DecidableEq, Repr

/-- A channel entry of a `users_conversations` response. -/
structure Channel where
  id : String
  name : String
  deriving DecidableEq, Repr

/-- One `users_conversations` response: the page of channels, the
`response_metadata.next_cursor` value, and the `has_more` flag. -/
structure ChanPage where
  channels : List Channel
  next_cursor : String
  has_more : Bool
  deriving DecidableEq, Repr

/-- One `conversations_history` response: the page of messages and the
`has_more` flag. -/
structure HistPage where
  messages : List Message
  has_more : Bool
  deriving DecidableEq, Repr

/-- Python truthiness of an optional string: `None` and `""` are falsy. -/
def optTruthy : Option String → Bool
  | none => false
  | some s => !(s == "")

/-- Python `channel_name.lstrip('#')`: remove every leading `'#'`. -/
def stripHash (s : String) : String :=
  ⟨s.toList.dropWhile (fun c => c == '#')⟩

/-- Outcome of `get_channel_id`.  The Python function returns the id string on
a match and `None` otherwise; the two `None` paths are distinguished here
because they print different diagnostics (channel not found after the last
page vs. `SlackApiError` from the listing call). -/
inductive ResolveResult where
  | found (id : String)
  | notFound
  | apiError
  deriving DecidableEq, Repr

namespace ListEmojis

/-- The `while True` loop of `get_channel_id` in `slack-list-emojis.py`:
scan the page for an exact name match, stop when `has_more` is falsy,
abort on `SlackApiError`. -/
def resolveGo (target : String) : List (Except Unit ChanPage) → ResolveResult
  | [] => .notFound
  | .error _ :: _ => .apiError
  | .ok p :: rest =>
    match p.channels.find? (fun c => c.name == target) with
    | some c => .found c.id
    | none => if p.has_more then resolveGo target rest else .notFound

/-- `get_channel_id(client, channel_name)` of `slack-list-emojis.py`:
strip leading `'#'` (Python `lstrip`), then follow the cursor loop. -/
def get_channel_id (pages : List (Except Unit ChanPage)) (channel_name : String) :
    ResolveResult :=
  resolveGo (stripHash channel_name) pages

/-- The cursors passed to the successive `users_conversations` calls the loop
issues (every call also passes the constant arguments
`types="public_channel,private_channel"` and `limit=200`). -/
def callsGo (target : String) (cursor : Option String) :
    List (Except Unit ChanPage) → List (Option String)
  | [] => []
  | .error _ :: _ => [cursor]
  | .ok p :: rest =>
    match p.channels.find? (fun c => c.name == target) with
    | some _ => [cursor]
    | none =>
      if p.has_more then cursor :: callsGo target (some p.next_cursor) rest
      else [cursor]

/-- The full listing-call trace of `get_channel_id` (first call has
`cursor=None`). -/
def get_channel_calls (pages : List (Except Unit ChanPage)) (channel_name : String) :
    List (Option String) :=
  callsGo (stripHash channel_name) none pages

end ListEmojis

namespace MsgCount

/-- The `while True` loop of `get_channel_id` in `slack-msg-count.py`
(the code is line-for-line the same as in `slack-list-emojis.py`). -/
def resolveGo (target : String) : List (Except Unit ChanPage) → ResolveResult
  | [] => .notFound
  | .error _ :: _ => .apiError
  | .ok p :: rest =>
    match p.channels.find? (fun c => c.name == target) with
    | some c => .found c.id
    | none => if p.has_more then resolveGo target rest else .notFound

/-- `get_channel_id(client, channel_name)` of `slack-msg-count.py`. -/
def get_channel_id (pages : List (Except Unit ChanPage)) (channel_name : String) :
    ResolveResult :=
  resolveGo (stripHash channel_name) pages

/-- The cursors of the successive `users_conversations` calls issued by
`get_channel_id` in `slack-msg-count.py`. -/
def callsGo (target : String) (cursor : Option String) :
    List (Except Unit ChanPage) → List (Option String)
  | [] => []
  | .error _ :: _ => [cursor]
  | .ok p :: rest =>
    match p.channels.find? (fun c => c.name == target) with
    | some _ => [cursor]
    | none =>
      if p.has_more then cursor :: callsGo target (some p.next_cursor) rest
      else [cursor]

/-- The full listing-call trace of `get_channel_id` in `slack-msg-count.py`. -/
def get_channel_calls (pages : List (Except Unit ChanPage)) (channel_name : String) :
    List (Option String) :=
  callsGo (stripHash channel_name) none pages

end MsgCount

/-- `Counter` update `emoji_counter[k] += n`: bump the existing entry in
place, or append a fresh entry at the end (Python dicts keep insertion
order). -/
def counterAdd : List (String × Nat) → String → Nat → List (String × Nat)
  | [], k, n => [(k, n)]
  | (k0, n0) :: rest, k, n =>
    if k0 == k then (k0, n0 + n) :: rest else (k0, n0) :: counterAdd rest k n

/-- `Counter` read `c[k]` (0 when the key is absent). -/
def counterGet (c : List (String × Nat)) (k : String) : Nat :=
  match c.find? (fun p => p.1 == k) with
  | some p => p.2
  | none => 0

/-- The inner loop of `get_emoji_reactions`: `if 'reactions' in message`,
then add each reaction's `count` under its `name`. -/
def addMessageReactions (c : List (String × Nat)) (m : Message) : List (String × Nat) :=
  match m.reactions with
  | none => c
  | some rs => rs.foldl (fun acc r => counterAdd acc r.name r.count) c

/-- The cursor loop of `get_emoji_reactions`: fold each page into the counter,
stop when `has_more` is falsy, return `None` on `SlackApiError`. -/
def emojiGo (c : List (String × Nat)) :
    List (Except Unit HistPage) → Option (List (String × Nat))
  | [] => some c
  | .error _ :: _ => none
  | .ok p :: rest =>
    let c2 := p.messages.foldl addMessageReactions c
    if p.has_more then emojiGo c2 rest else some c2

/-- `get_emoji_reactions(client, channel_id, ...)` of `slack-list-emojis.py`
(success path returns the counter, `SlackApiError` path returns `None`). -/
def get_emoji_reactions (pages : List (Except Unit HistPage)) :
    Option (List (String × Nat)) :=
  emojiGo [] pages

/-- An error-free history call sequence delivering the given pages of
messages: every response is `.ok` and `has_more` is set exactly while more
pages follow. -/
def mkOkHist : List (List Message) → List (Except Unit HistPage)
  | [] => []
  | p :: rest => .ok ⟨p, !rest.isEmpty⟩ :: mkOkHist rest

/-- Specification-side expression: the contribution of message `m` to emoji
`k`, i.e. the sum of the `count` fields of the reactions of `m` named `k`
(0 when the message has no `reactions` field). -/
def msgEmojiCount (m : Message) (k : String) : Nat :=
  match m.reactions with
  | none => 0
  | some rs => (rs.map (fun r => if r.name == k then r.count else 0)).sum

/-- The success-path aggregate of `get_emoji_reactions` over a flat message
list. -/
def aggregateEmojis (msgs : List Message) : List (String × Nat) :=
  msgs.foldl addMessageReactions []

/-- `is_reply = 'thread_ts' in message and message.get('thread_ts') != message.get('ts')`. -/
def Message.is_reply (m : Message) : Bool :=
  m.thread_ts.isSome && !(m.thread_ts == m.ts)

/-- A message is a root message when it is not a reply. -/
def Message.is_root (m : Message) : Bool :=
  !m.is_reply

/-- The `should_count` cascade of `count_messages` (`count_replies` is the
`--replies` flag, `count_msgs` the `--messages` flag). -/
def shouldCount (count_replies count_msgs : Bool) (m : Message) : Bool :=
  if count_replies && count_msgs then true
  else if count_replies && m.is_reply then true
  else if count_msgs && !m.is_reply then true
  else if !count_replies && !count_msgs then true
  else false

/-- Python `a or b` on optional strings: the first truthy value, else `b`. -/
def pyOr (a b : Option String) : Option String :=
  if optTruthy a then a else b

/-- Actor-key extraction of `count_messages`: `message.get('user')` if truthy
(human), else `message.get('bot_id') or message.get('app_id')` if truthy
(bot), else the sentinel `"unknown"` (bot).  Returns `(user_id, is_bot)`. -/
def Message.actorKey (m : Message) : String × Bool :=
  if optTruthy m.user then (m.user.getD "", false)
  else
    let u := pyOr m.bot_id m.app_id
    if optTruthy u then (u.getD "", true) else ("unknown", true)

/-- One `user_counts`/`user_is_bot` update: bump the existing entry in place
or append `(key, is_bot, 1)` at the end; the stored bot flag is the one seen
at first encounter. -/
def bumpActor : List (String × Bool × Nat) → String → Bool → List (String × Bool × Nat)
  | [], k, b => [(k, b, 1)]
  | (k0, b0, n0) :: rest, k, b =>
    if k0 == k then (k0, b0, n0 + 1) :: rest
    else (k0, b0, n0) :: bumpActor rest k b

/-- Running state of the counting loop: `total_count` and the insertion-ordered
`user_counts` (paired with `user_is_bot`). -/
structure MsgAgg where
  total : Nat
  actors : List (String × Bool × Nat)
  deriving DecidableEq, Repr

/-- Processing of one message inside the history loop of `count_messages`. -/
def procMessage (count_replies count_msgs per_user : Bool) (st : MsgAgg) (m : Message) :
    MsgAgg :=
  if shouldCount count_replies count_msgs m then
    { total := st.total + 1
      actors :=
        if per_user then bumpActor st.actors m.actorKey.1 m.actorKey.2
        else st.actors }
  else st

/-- The cursor loop of `count_messages`: fold each page of messages into the
running state, stop when `has_more` is falsy, return `None` on
`SlackApiError`. -/
def countLoop (count_replies count_msgs per_user : Bool) (st : MsgAgg) :
    List (Except Unit HistPage) → Option MsgAgg
  | [] => some st
  | .error _ :: _ => none
  | .ok p :: rest =>
    let st2 := p.messages.foldl (procMessage count_replies count_msgs per_user) st
    if p.has_more then countLoop count_replies count_msgs per_user st2 rest
    else some st2

/-- The info-lookup side of the Slack client used by `get_user_display`:
`bots_info` yields the optional `bot.name` field, `users_info` the optional
`user.profile.email` field; `.error` models a `SlackApiError`. -/
structure Provider where
  bots_info : String → Except Unit (Option String)
  users_info : String → Except Unit (Option String)

/-- `user_id in user_cache` / `user_cache[user_id]` on the association-list
model of the cache. -/
def cacheLookup (cache : List (String × String)) (k : String) : Option String :=
  match cache.find? (fun p => p.1 == k) with
  | some p => some p.2
  | none => none

/-- `get_user_display(client, user_id, is_bot, user_cache)` of
`slack-msg-count.py`.  Returns the display label, the updated cache, and the
number of network calls this invocation issued. -/
def get_user_display (prov : Provider) (user_id : String) ( is_bot : Bool)
    (user_cache : List (String × String)) : String × List (String × String) × Nat :=
  match cacheLookup user_cache user_id with
  | some d => (d, user_cache, 0)
  | none =>
    match (if is_bot then prov.bots_info user_id else prov.users_info user_id) with
    | .ok nameOpt =>
      let display := nameOpt.getD user_id ++ ":" ++ user_id
      (display, (user_id, display) :: user_cache, 1)
    | .error _ =>
      let display := user_id ++ ":" ++ user_id
      (display, (user_id, display) :: user_cache, 1)

/-- The per-user output loop of `count_messages`: one
`(count, "channel_name:display")` row per entry of `user_counts`, in first-
encounter order, threading `user_cache` through `get_user_display`. -/
def formatPerUser (prov : Provider) (channel_name : String) :
    List (String × Bool × Nat) → List (String × String) →
    List (Nat × String) × List (String × String)
  | [], cache => ([], cache)
  | (uid, b, n) :: rest, cache =>
    let r := get_user_display prov uid b cache
    let tail := formatPerUser prov channel_name rest r.2.1
    ((n, channel_name ++ ":" ++ r.1) :: tail.1, tail.2)

/-- `count_messages(client, channel_id, channel_name, count_replies,
count_messages, per_user, ...)` of `slack-msg-count.py` (success path returns
the report rows, `SlackApiError` during pagination returns `None`). -/
def count_messages (prov : Provider) (channel_name : String)
    (count_replies count_msgs per_user : Bool)
    (hist : List (Except Unit HistPage)) : Option (List (Nat × String)) :=
  (countLoop count_replies count_msgs per_user ⟨0, []⟩ hist).map (fun st =>
    if per_user then (formatPerUser prov channel_name st.actors []).1
    else [(st.total, channel_name)])

/-- Python list slice `l[s:]` (negative start counts from the end, clamped). -/
def pySliceFrom (s : Int) (l : List (Nat × String)) : List (Nat × String) :=
  if s < 0 then l.drop (l.length - (-s).toNat) else l.drop s.toNat

/-- The `--top` step shared by both `main` functions:
`if args.top: sorted_results = sorted_results[-args.top:][::-1]`
(`args.top` is `None` when the flag is absent; `0` is falsy). -/
def applyTopFilter (top : Option Int) (rows : List (Nat × String)) :
    List (Nat × String) :=
  match top with
  | none => rows
  | some n => if n == 0 then rows else (pySliceFrom (-n) rows).reverse

/-- The date-parsing prologue of both `main` functions: try to parse
`--date-from` then `--date-to` when truthy (`parseDate` models
`datetime.strptime(s, "%Y-%m-%d")` composed with `.timestamp()`); any
`ValueError` makes the whole step fail. -/
def parseDatesPair (parseDate : String → Option Nat) (df dt : Option String) :
    Option (Option Nat × Option Nat) :=
  match (if optTruthy df then (parseDate (df.getD "")).map some else some none) with
  | none => none
  | some o =>
    match (if optTruthy dt then (parseDate (dt.getD "")).map some else some none) with
    | none => none
    | some l => some (o, l)

/-- Command-line arguments of `slack-list-emojis.py`. -/
structure ArgsEmoji where
  channel_name : String
  date_from : Option String := none
  date_to : Option String := none
  top : Option Int := none

/-- Command-line arguments of `slack-msg-count.py`. -/
structure ArgsMsg where
  channel_name : String
  replies : Bool := false
  messages : Bool := false
  user : Bool := false
  date_from : Option String := none
  date_to : Option String := none
  top : Option Int := none

/-- Observable outcome of one run: the exit status, the lines written to the
output stream, and the lines written to the error stream. -/
structure MainOut where
  exitCode : Nat
  stdout : List String
  stderr : List String
  deriving DecidableEq, Repr

/-- `main()` of `slack-list-emojis.py`.  `parseDate` models `strptime`,
`token` the `SLACK_TOKEN` environment variable, `chanResp`/`histResp` the
provider's responses to the listing and history call sequences. -/
def mainEmoji (parseDate : String → Option Nat) (token : Option String)
    (a : ArgsEmoji) (chanResp : List (Except Unit ChanPage))
    (histResp : List (Except Unit HistPage)) : MainOut :=
  match parseDatesPair parseDate a.date_from a.date_to with
  | none => ⟨1, [], ["Error: Invalid date format. Use YYYY-MM-DD"]⟩
  | some _ =>
    if !optTruthy token then
      ⟨1, [], ["Error: SLACK_TOKEN environment variable not set"]⟩
    else
      match ListEmojis.get_channel_id chanResp a.channel_name with
      | .notFound =>
        ⟨1, [], ["Error: Channel " ++ stripHash a.channel_name ++ " not found"]⟩
      | .apiError => ⟨1, [], ["Error fetching channels"]⟩
      | .found cid =>
        if cid == "" then ⟨1, [], []⟩
        else
          let progress := "Fetching emoji reactions from #" ++ a.channel_name ++ "..."
          match get_emoji_reactions histResp with
          | none =>
            ⟨1, [],
              [progress, "Error fetching messages",
               "Error: Failed to retrieve emoji reactions"]⟩
          | some counter =>
            let sorted := counter.mergeSort (fun x y => Nat.ble x.2 y.2)
            let rows := sorted.map (fun p => (p.2, p.1))
            let sel := applyTopFilter a.top rows
            ⟨0, sel.map (fun p => toString p.1 ++ " :" ++ p.2 ++ ":"), [progress]⟩

/-- `main()` of `slack-msg-count.py`. -/
def mainMsg (parseDate : String → Option Nat) (token : Option String)
    (a : ArgsMsg) (prov : Provider) (chanResp : List (Except Unit ChanPage))
    (histResp : List (Except Unit HistPage)) : MainOut :=
  match parseDatesPair parseDate a.date_from a.date_to with
  | none => ⟨1, [], ["Error: Invalid date format. Use YYYY-MM-DD"]⟩
  | some _ =>
    if !optTruthy token then
      ⟨1, [], ["Error: SLACK_TOKEN environment variable not set"]⟩
    else
      match MsgCount.get_channel_id chanResp a.channel_name with
      | .notFound =>
        ⟨1, [], ["Error: Channel " ++ stripHash a.channel_name ++ " not found"]⟩
      | .apiError => ⟨1, [], ["Error fetching channels"]⟩
      | .found cid =>
        if cid == "" then ⟨1, [], []⟩
        else
          let progress := "Counting messages in #" ++ a.channel_name ++ "..."
          match count_messages prov a.channel_name a.replies a.messages a.user histResp with
          | none =>
            ⟨1, [],
              [progress, "Error fetching messages",
               "Error: Failed to count messages"]⟩
          | some results =>
            let sorted := results.mergeSort (fun x y => Nat.ble x.1 y.1)
            let sel := applyTopFilter a.top sorted
            ⟨0, sel.map (fun p => toString p.1 ++ " " ++ p.2), [progress]⟩

/-- Stripping as claim C3 words it: remove *a* (one) leading `'#'`. -/
def stripOneHash (s : String) : String :=
  match s.toList with
  | '#' :: rest => ⟨rest⟩
  | _ => s

/-- The channel resolver as claim C3 states it (spec-side definition, for
comparison with the code): strip one leading `'#'`, then run the same
first-exact-match page scan. -/
def get_channel_id_asClaimed (pages : List (Except Unit ChanPage))
    (channel_name : String) : ResolveResult :=
  ListEmojis.resolveGo (stripOneHash channel_name) pages

/-- The channels the resolver loop can ever inspect: the pages' channels in
order, cut off at the first erroring call and at the first page whose
`has_more` is falsy. -/
def visitedChannels : List (Except Unit ChanPage) → List Channel
  | [] => []
  | .error _ :: _ => []
  | .ok p :: rest =>
    if p.has_more then p.channels ++ visitedChannels rest else p.channels

/-- Whether the listing loop runs into an erroring call before a page with a
falsy `has_more` ends it. -/
def listingAborts : List (Except Unit ChanPage) → Bool
  | [] => false
  | .error _ :: _ => true
  | .ok p :: rest => p.has_more && listingAborts rest

/-- A provider whose `bots_info` and `users_info` calls always succeed with
an absent name/email field. -/
def okProvider : Provider :=
  ⟨fun _ => .ok none, fun _ => .ok none⟩

/-- A provider whose `bots_info` and `users_info` calls always raise
`SlackApiError`. -/
def failingProvider : Provider :=
  ⟨fun _ => .error (), fun _ => .error ()⟩

/-- Scenario message of the spec: `{reactions: [{name:"thumbsup",count:3}]}`. -/
def mThumb1 : Message :=
  { reactions := some [⟨"thumbsup", 3⟩] }

/-- Scenario message of the spec:
`{reactions: [{name:"thumbsup",count:1},{name:"tada",count:2}]}`. -/
def mThumb2 : Message :=
  { reactions := some [⟨"thumbsup", 1⟩, ⟨"tada", 2⟩] }

/-- A reply: `thread_ts` present and different from `ts`. -/
def mReply : Message :=
  { user := some "U1", ts := some "2.0", thread_ts := some "1.0" }

/-- A root message: no `thread_ts`. -/
def mRoot : Message :=
  { user := some "U2", ts := some "1.0" }

/-! ### Lemmas about the emoji counter -/

theorem counterGet_nil (k : String) : counterGet [] k = 0 := rfl

theorem counterGet_cons (k1 : String) (n1 : Nat) (tl : List (String × Nat)) (k0 : String) :
    counterGet ((k1, n1) :: tl) k0 = if k1 = k0 then n1 else counterGet tl k0 := by
  by_cases h : k1 = k0 <;> simp [counterGet, List.find?_cons, h]

theorem counterGet_counterAdd (c : List (String × Nat)) (k : String) (n : Nat)
    (k0 : String) :
    counterGet (counterAdd c k n) k0 = counterGet c k0 + (if k = k0 then n else 0) := by
  induction c with
  | nil =>
    by_cases h : k = k0 <;> simp [counterAdd, counterGet_cons, counterGet_nil, h]
  | cons hd tl ih =>
    obtain ⟨k1, n1⟩ := hd
    by_cases h1 : k1 = k
    · subst h1
      by_cases h0 : k1 = k0 <;>
        simp [counterAdd, counterGet_cons, h0] <;> omega
    · have hb : (k1 == k) = false := by simpa using h1
      by_cases h0 : k1 = k0
      · subst h0
        simp [counterAdd, hb, counterGet_cons, h1]
        exact fun hk => absurd hk.symm h1
      · simp [counterAdd, hb, counterGet_cons, h0, ih]

theorem counterGet_foldl_reactions (rs : List Reaction) (c : List (String × Nat))
    (k : String) :
    counterGet (rs.foldl (fun acc r => counterAdd acc r.name r.count) c) k =
      counterGet c k + (rs.map (fun r => if r.name == k then r.count else 0)).sum := by
  induction rs generalizing c with
  | nil => simp
  | cons r rs ih =>
    rw [List.foldl_cons, ih, counterGet_counterAdd]
    by_cases h : r.name = k <;> simp [h] <;> omega

theorem counterGet_addMessageReactions (c : List (String × Nat)) (m : Message)
    (k : String) :
    counterGet (addMessageReactions c m) k = counterGet c k + msgEmojiCount m k := by
  cases h : m.reactions with
  | none => simp [addMessageReactions, msgEmojiCount, h]
  | some rs => simp [addMessageReactions, msgEmojiCount, h, counterGet_foldl_reactions]

theorem counterGet_foldl_msgs (msgs : List Message) (c : List (String × Nat))
    (k : String) :
    counterGet (msgs.foldl addMessageReactions c) k =
      counterGet c k + (msgs.map (fun m => msgEmojiCount m k)).sum := by
  induction msgs generalizing c with
  | nil => simp
  | cons m msgs ih =>
    rw [List.foldl_cons, ih, counterGet_addMessageReactions]
    simp only [List.map_cons, List.sum_cons]
    omega

theorem emojiGo_mkOkHist (pages : List (List Message)) (c : List (String × Nat)) :
    emojiGo c (mkOkHist pages) =
      some (pages.foldl (fun acc pg => pg.foldl addMessageReactions acc) c) := by
  induction pages generalizing c with
  | nil => simp [mkOkHist, emojiGo]
  | cons p rest ih =>
    cases rest with
    | nil => simp [mkOkHist, emojiGo]
    | cons q qs =>
      have hpage : mkOkHist (p :: q :: qs) = .ok ⟨p, true⟩ :: mkOkHist (q :: qs) := by
        simp [mkOkHist]
      rw [hpage]
      rw [show emojiGo c (Except.ok ⟨p, true⟩ :: mkOkHist (q :: qs)) =
            emojiGo (p.foldl addMessageReactions c) (mkOkHist (q :: qs)) from rfl]
      rw [ih]
      rfl

/-- C1: for every sequence of messages, under any split into pages, the
aggregate of `get_emoji_reactions` maps each emoji name to the sum of that
emoji's `count` fields over all messages; messages without a `reactions`
field contribute nothing, and the mapping is invariant under permutation of
the message sequence. -/
theorem claim_C1_emoji_aggregate (pages pages2 : List (List Message)) (k : String)
    (hperm : pages.flatten.Perm pages2.flatten) :
    get_emoji_reactions (mkOkHist pages) = some (aggregateEmojis pages.flatten) ∧
    counterGet (aggregateEmojis pages.flatten) k =
      (pages.flatten.map (fun m => msgEmojiCount m k)).sum ∧
    counterGet (aggregateEmojis pages.flatten) k =
      counterGet (aggregateEmojis pages2.flatten) k ∧
    ∀ (c : List (String × Nat)) (m : Message), m.reactions = none →
      addMessageReactions c m = c := by
  refine ⟨?_, ?_, ?_, ?_⟩
  · rw [get_emoji_reactions, emojiGo_mkOkHist, aggregateEmojis, List.foldl_flatten]
  · rw [aggregateEmojis, counterGet_foldl_msgs, counterGet_nil, Nat.zero_add]
  · rw [aggregateEmojis, aggregateEmojis, counterGet_foldl_msgs, counterGet_foldl_msgs]
    have hsum := (hperm.map (fun m => msgEmojiCount m k)).sum_eq
    omega
  · intro c m h
    simp [addMessageReactions, h]

/-- Witness for C1 at the spec's scenario messages, with a page split of
`[m1, m2]` against the swapped single page `[m2, m1]`. -/
theorem claim_C1_emoji_aggregate_witness :
    counterGet (aggregateEmojis [[mThumb1], [mThumb2]].flatten) "thumbsup" =
      ([[mThumb1], [mThumb2]].flatten.map (fun m => msgEmojiCount m "thumbsup")).sum ∧
    counterGet (aggregateEmojis [[mThumb1], [mThumb2]].flatten) "thumbsup" =
      counterGet (aggregateEmojis [[mThumb2, mThumb1]].flatten) "thumbsup" :=
  ⟨(claim_C1_emoji_aggregate [[mThumb1], [mThumb2]] [[mThumb2, mThumb1]] "thumbsup"
      (by decide)).2.1,
   (claim_C1_emoji_aggregate [[mThumb1], [mThumb2]] [[mThumb2, mThumb1]] "thumbsup"
      (by decide)).2.2.1⟩

/-! ### Lemmas about the channel resolver -/

theorem stripHash_hash_append (s : String) : stripHash ("#" ++ s) = stripHash s := by
  cases s with
  | mk data =>
    show String.mk (List.dropWhile (fun c => c == '#') ('#' :: data)) = _
    rw [List.dropWhile_cons]
    simp
    rfl

theorem resolveGo_characterization (target : String)
    (pages : List (Except Unit ChanPage)) :
    ListEmojis.resolveGo target pages =
      (match (visitedChannels pages).find? (fun c => c.name == target) with
       | some c => ResolveResult.found c.id
       | none =>
         if listingAborts pages then ResolveResult.apiError
         else ResolveResult.notFound) := by
  induction pages with
  | nil => rfl
  | cons r rest ih =>
    cases r with
    | error e => rfl
    | ok p =>
      cases hfind : p.channels.find? (fun c => c.name == target) with
      | some c =>
        by_cases hm : p.has_more <;>
          simp [ListEmojis.resolveGo, visitedChannels, listingAborts, hm, hfind,
            List.find?_append]
      | none =>
        by_cases hm : p.has_more
        · simp [ListEmojis.resolveGo, visitedChannels, listingAborts, hm, hfind,
            List.find?_append, ih]
        · simp [ListEmojis.resolveGo, visitedChannels, listingAborts, hm, hfind]

/-- C3 counterexample: on the input name `"##general"` against a listing with
a single channel named `"general"`, the code (which strips every leading
`'#'`) finds the channel, while the resolver described by the claim (strip
one leading `'#'`, then require exact equality) reports not-found. -/
theorem claim_C3_counterexample :
    ListEmojis.get_channel_id [.ok ⟨[⟨"C1", "general"⟩], "", false⟩] "##general" =
      .found "C1" ∧
    get_channel_id_asClaimed [.ok ⟨[⟨"C1", "general"⟩], "", false⟩] "##general" =
      .notFound ∧
    stripOneHash "##general" = "#general" := by
  refine ⟨rfl, rfl, rfl⟩

/-- C3 (amended): the resolver strips **all** leading `'#'` characters, then
returns the id of the first channel in the visited listing whose name equals
the stripped name under exact case-sensitive equality; if the pages are
exhausted without a match it reports not-found (and a listing-call failure
reached before that reports the API error).  In particular prepending one
`'#'` to any requested name never changes the result, so `"#general"`
resolves identically to `"general"`. -/
theorem claim_C3_resolver (pages : List (Except Unit ChanPage)) (name : String) :
    ListEmojis.get_channel_id pages ("#" ++ name) =
      ListEmojis.get_channel_id pages name ∧
    ListEmojis.get_channel_id pages name =
      (match (visitedChannels pages).find? (fun c => c.name == stripHash name) with
       | some c => ResolveResult.found c.id
       | none =>
         if listingAborts pages then ResolveResult.apiError
         else ResolveResult.notFound) := by
  constructor
  · rw [ListEmojis.get_channel_id, ListEmojis.get_channel_id, stripHash_hash_append]
  · rw [ListEmojis.get_channel_id, resolveGo_characterization]

theorem resolveGo_eq_msgCount (target : String) (pages : List (Except Unit ChanPage)) :
    ListEmojis.resolveGo target pages = MsgCount.resolveGo target pages := by
  induction pages with
  | nil => rfl
  | cons r rest ih =>
    cases r with
    | error e => rfl
    | ok p =>
      cases hfind : p.channels.find? (fun c => c.name == target) with
      | some c => simp [ListEmojis.resolveGo, MsgCount.resolveGo, hfind]
      | none => simp [ListEmojis.resolveGo, MsgCount.resolveGo, hfind, ih]

theorem callsGo_eq_msgCount (target : String) (cursor : Option String)
    (pages : List (Except Unit ChanPage)) :
    ListEmojis.callsGo target cursor pages = MsgCount.callsGo target cursor pages := by
  induction pages generalizing cursor with
  | nil => rfl
  | cons r rest ih =>
    cases r with
    | error e => rfl
    | ok p =>
      cases hfind : p.channels.find? (fun c => c.name == target) with
      | some c => simp [ListEmojis.callsGo, MsgCount.callsGo, hfind]
      | none => simp [ListEmojis.callsGo, MsgCount.callsGo, hfind, ih]

/-- C8: the two programs' channel resolvers are extensionally equal — on every
channel name and every sequence of listing responses they return the same
result and issue the same sequence of listing calls. -/
theorem claim_C8_resolvers_equal (pages : List (Except Unit ChanPage))
    (channel_name : String) :
    ListEmojis.get_channel_id pages channel_name =
      MsgCount.get_channel_id pages channel_name ∧
    ListEmojis.get_channel_calls pages channel_name =
      MsgCount.get_channel_calls pages channel_name :=
  ⟨resolveGo_eq_msgCount (stripHash channel_name) pages,
   callsGo_eq_msgCount (stripHash channel_name) none pages⟩

/-! ### Lemmas about the message-count loop -/

theorem countLoop_mkOkHist (cr cm pu : Bool) (pages : List (List Message))
    (st : MsgAgg) :
    countLoop cr cm pu st (mkOkHist pages) =
      some (pages.flatten.foldl (procMessage cr cm pu) st) := by
  induction pages generalizing st with
  | nil => simp [mkOkHist, countLoop]
  | cons p rest ih =>
    cases rest with
    | nil => simp [mkOkHist, countLoop]
    | cons q qs =>
      have hpage : mkOkHist (p :: q :: qs) = .ok ⟨p, true⟩ :: mkOkHist (q :: qs) := by
        simp [mkOkHist]
      rw [hpage]
      rw [show countLoop cr cm pu st (Except.ok ⟨p, true⟩ :: mkOkHist (q :: qs)) =
            countLoop cr cm pu (p.foldl (procMessage cr cm pu) st) (mkOkHist (q :: qs))
          from rfl]
      rw [ih]
      simp [List.flatten_cons, List.foldl_append]

theorem foldl_procMessage_total (cr cm pu : Bool) (msgs : List Message) (st : MsgAgg) :
    (msgs.foldl (procMessage cr cm pu) st).total =
      st.total + (msgs.filter (shouldCount cr cm)).length := by
  induction msgs generalizing st with
  | nil => simp
  | cons m msgs ih =>
    rw [List.foldl_cons, ih, List.filter_cons]
    by_cases h : shouldCount cr cm m <;> simp [h, procMessage] <;> omega

theorem foldl_procMessage_actors_global (cr cm : Bool) (msgs : List Message)
    (st : MsgAgg) :
    (msgs.foldl (procMessage cr cm false) st).actors = st.actors := by
  induction msgs generalizing st with
  | nil => rfl
  | cons m msgs ih =>
    rw [List.foldl_cons, ih]
    by_cases h : shouldCount cr cm m <;> simp [h, procMessage]

theorem foldl_procMessage_of_filter_nil (cr cm pu : Bool) (msgs : List Message)
    (st : MsgAgg) (h : msgs.filter (shouldCount cr cm) = []) :
    msgs.foldl (procMessage cr cm pu) st = st := by
  induction msgs generalizing st with
  | nil => rfl
  | cons m msgs ih =>
    rw [List.filter_cons] at h
    by_cases hm : shouldCount cr cm m
    · simp [hm] at h
    · simp only [hm, Bool.false_eq_true, if_false] at h
      rw [List.foldl_cons, show procMessage cr cm pu st m = st by simp [procMessage, hm]]
      exact ih st h

theorem countLoop_congr (cr cm cr2 cm2 pu : Bool)
    (h : ∀ m, shouldCount cr cm m = shouldCount cr2 cm2 m)
    (hist : List (Except Unit HistPage)) (st : MsgAgg) :
    countLoop cr cm pu st hist = countLoop cr2 cm2 pu st hist := by
  have hproc : procMessage cr cm pu = procMessage cr2 cm2 pu := by
    funext st m
    simp [procMessage, h m]
  induction hist generalizing st with
  | nil => rfl
  | cons r rest ih =>
    cases r with
    | error e => rfl
    | ok p => simp [countLoop, hproc, ih]

/-- C2: a message is a reply exactly when it carries a `thread_ts` differing
from its own `ts` (and every message is exactly one of reply/root); the
filter of `count_messages` keeps everything when both flags are set or both
are clear, exactly the replies with only `--replies`, and exactly the roots
with only `--messages`; hence both-set and both-clear runs equal the
unfiltered run and count every message. -/
theorem claim_C2_reply_filter (m : Message) (prov : Provider) (channel_name : String)
    (per_user : Bool) (pages : List (List Message)) :
    (m.is_reply = true ↔ ∃ t, m.thread_ts = some t ∧ some t ≠ m.ts) ∧
    ((m.is_reply = true ∧ m.is_root = false) ∨ (m.is_reply = false ∧ m.is_root = true)) ∧
    shouldCount true true m = true ∧
    shouldCount false false m = true ∧
    shouldCount true false m = m.is_reply ∧
    shouldCount false true m = m.is_root ∧
    count_messages prov channel_name true true per_user (mkOkHist pages) =
      count_messages prov channel_name false false per_user (mkOkHist pages) ∧
    count_messages prov channel_name true false false (mkOkHist pages) =
      some [((pages.flatten.filter (fun m2 => m2.is_reply)).length, channel_name)] ∧
    count_messages prov channel_name false true false (mkOkHist pages) =
      some [((pages.flatten.filter (fun m2 => m2.is_root)).length, channel_name)] ∧
    count_messages prov channel_name true true false (mkOkHist pages) =
      some [(pages.flatten.length, channel_name)] := by
  refine ⟨?_, ?_, ?_, ?_, ?_, ?_, ?_, ?_, ?_, ?_⟩
  · cases hth : m.thread_ts with
    | none => simp [Message.is_reply, hth]
    | some t => simp [Message.is_reply, hth]
  · cases h : m.is_reply <;> simp [Message.is_root, h]
  · simp [shouldCount]
  · simp [shouldCount]
  · cases h : m.is_reply <;> simp [shouldCount, h]
  · cases h : m.is_reply <;> simp [shouldCount, Message.is_root, h]
  · rw [count_messages, count_messages,
      countLoop_congr true true false false per_user (fun m2 => by simp [shouldCount])]
  · have hf : pages.flatten.filter (shouldCount true false) =
        pages.flatten.filter (fun m2 => m2.is_reply) :=
      List.filter_congr (fun m2 _ => by cases h : m2.is_reply <;> simp [shouldCount, h])
    rw [count_messages, countLoop_mkOkHist, Option.map_some']
    simp [foldl_procMessage_total, hf]
  · have hf : pages.flatten.filter (shouldCount false true) =
        pages.flatten.filter (fun m2 => m2.is_root) :=
      List.filter_congr (fun m2 _ => by
        cases h : m2.is_reply <;> simp [shouldCount, Message.is_root, h])
    rw [count_messages, countLoop_mkOkHist, Option.map_some']
    simp [foldl_procMessage_total, hf]
  · have hf : pages.flatten.filter (shouldCount true true) = pages.flatten := by
      have h1 : pages.flatten.filter (shouldCount true true) =
          pages.flatten.filter (fun _ => true) :=
        List.filter_congr (fun m2 _ => by simp [shouldCount])
      rw [h1, List.filter_true]
    rw [count_messages, countLoop_mkOkHist, Option.map_some']
    simp [foldl_procMessage_total, hf]

/-- Witness for C2 at a concrete reply and concrete pages. -/
theorem claim_C2_reply_filter_witness :
    (mReply.is_reply = true ↔ ∃ t, mReply.thread_ts = some t ∧ some t ≠ mReply.ts) ∧
    count_messages okProvider "general" true false false (mkOkHist [[mReply, mRoot]]) =
      some [(([mReply, mRoot].filter (fun m2 => m2.is_reply)).length, "general")] :=
  ⟨(claim_C2_reply_filter mReply okProvider "general" false [[mReply, mRoot]]).1,
   by
    have h :=
      (claim_C2_reply_filter mReply okProvider "general" false [[mReply, mRoot]]).2.2.2.2.2.2.2.1
    simpa using h⟩

/-- C9: when the filter keeps no message at all, the global report still has
exactly one row `(0, channel_name)`, while the per-actor report is empty. -/
theorem claim_C9_empty_stream (prov : Provider) (channel_name : String)
    (cr cm : Bool) (pages : List (List Message))
    (h : pages.flatten.filter (shouldCount cr cm) = []) :
    count_messages prov channel_name cr cm false (mkOkHist pages) =
      some [(0, channel_name)] ∧
    count_messages prov channel_name cr cm true (mkOkHist pages) = some [] := by
  constructor
  · rw [count_messages, countLoop_mkOkHist, foldl_procMessage_of_filter_nil cr cm false _ _ h]
    rfl
  · rw [count_messages, countLoop_mkOkHist, foldl_procMessage_of_filter_nil cr cm true _ _ h]
    rfl

/-- Witness for C9: a root-only channel scanned with `--replies` keeps no
message. -/
theorem claim_C9_empty_stream_witness :
    count_messages okProvider "general" true false false (mkOkHist [[mRoot]]) =
      some [(0, "general")] ∧
    count_messages okProvider "general" true false true (mkOkHist [[mRoot]]) =
      some [] :=
  claim_C9_empty_stream okProvider "general" true false [[mRoot]] (by decide)

/-- C5: `get_user_display` is memoized — after any first lookup of a key, a
second lookup of the same key (with either bot flag) returns the identical
display label, leaves the cache unchanged, and issues zero network calls. -/
theorem claim_C5_display_memoized (prov : Provider) (user_id : String)
    (b1 b2 : Bool) (user_cache : List (String × String)) :
    get_user_display prov user_id b2 (get_user_display prov user_id b1 user_cache).2.1 =
      ((get_user_display prov user_id b1 user_cache).1,
       (get_user_display prov user_id b1 user_cache).2.1, 0) := by
  cases hc : cacheLookup user_cache user_id with
  | some d => simp [get_user_display, hc]
  | none =>
    cases hr : (if b1 then prov.bots_info user_id else prov.users_info user_id) with
    | ok nameOpt =>
      have hcache2 : cacheLookup
          ((user_id, nameOpt.getD user_id ++ ":" ++ user_id) :: user_cache) user_id =
          some (nameOpt.getD user_id ++ ":" ++ user_id) := by
        simp [cacheLookup, List.find?_cons]
      simp only [get_user_display, hc, hr]
      simp [hcache2]
    | error e =>
      have hcache2 : cacheLookup
          ((user_id, user_id ++ ":" ++ user_id) :: user_cache) user_id =
          some (user_id ++ ":" ++ user_id) := by
        simp [cacheLookup, List.find?_cons]
      simp only [get_user_display, hc, hr]
      simp [hcache2]

/-- C6: a failed info lookup does not abort the run — `get_user_display`
returns the fallback label `"{key}:{key}"`, caches it (with one call issued),
a repeated lookup is served from the cache with no further call, and
`count_messages` over error-free history pages always produces a report,
whatever the info provider does. -/
theorem claim_C6_lookup_failure (prov : Provider) (user_id : String) ( is_bot : Bool)
    (user_cache : List (String × String))
    (hmiss : cacheLookup user_cache user_id = none)
    (hfail : (if is_bot then prov.bots_info user_id else prov.users_info user_id) =
      .error ()) :
    get_user_display prov user_id is_bot user_cache =
      (user_id ++ ":" ++ user_id, (user_id, user_id ++ ":" ++ user_id) :: user_cache, 1) ∧
    get_user_display prov user_id is_bot
        (get_user_display prov user_id is_bot user_cache).2.1 =
      (user_id ++ ":" ++ user_id, (user_id, user_id ++ ":" ++ user_id) :: user_cache, 0) ∧
    ∀ (channel_name : String) (cr cm pu : Bool) (pages : List (List Message)),
      (count_messages prov channel_name cr cm pu (mkOkHist pages)).isSome = true := by
  refine ⟨?_, ?_, ?_⟩
  · simp [get_user_display, hmiss, hfail]
  · have hcache2 : cacheLookup
        ((user_id, user_id ++ ":" ++ user_id) :: user_cache) user_id =
        some (user_id ++ ":" ++ user_id) := by
      simp [cacheLookup, List.find?_cons]
    simp only [get_user_display, hmiss, hfail]
    simp [hcache2]
  · intro channel_name cr cm pu pages
    rw [count_messages, countLoop_mkOkHist]
    rfl

/-- Witness for C6: a provider whose lookups always fail, an empty cache. -/
theorem claim_C6_lookup_failure_witness :
    get_user_display failingProvider "B1" true [] = ("B1:B1", [("B1", "B1:B1")], 1) ∧
    get_user_display failingProvider "B1" true
        (get_user_display failingProvider "B1" true []).2.1 =
      ("B1:B1", [("B1", "B1:B1")], 0) ∧
    ∀ (channel_name : String) (cr cm pu : Bool) (pages : List (List Message)),
      (count_messages failingProvider channel_name cr cm pu (mkOkHist pages)).isSome =
        true :=
  claim_C6_lookup_failure failingProvider "B1" true [] rfl rfl

/-- C4 counterexample: with `--top 0` the code applies no selection at all
(`args.top` is falsy), so on a one-row list it prints that row — not
`min(0, 1) = 0` rows as the claim, read over every integer N, demands. -/
theorem claim_C4_counterexample :
    applyTopFilter (some 0) [(1, "a")] = [(1, "a")] ∧
    (applyTopFilter (some 0) [(1, "a")]).length ≠ min (Int.toNat 0) [(1, "a")].length := by
  constructor
  · rfl
  · decide

/-- C4 (amended): for every **positive** integer N passed to `--top`, the
selection returns exactly `min(N, row_count)` rows, equals the reversal of
the last-N tail of the given (ascending-by-count sorted) row list, presents
highest counts first, and yields all rows reversed when N is at least the
row count.  (N = 0 is excluded: the code treats a zero `--top` as absent.) -/
theorem claim_C4_top_selection (n : Int) (hn : 1 ≤ n) (rows : List (Nat × String)) :
    (applyTopFilter (some n) rows).length = min n.toNat rows.length ∧
    applyTopFilter (some n) rows = (rows.drop (rows.length - n.toNat)).reverse ∧
    (rows.Pairwise (fun a b => a.1 ≤ b.1) →
      (applyTopFilter (some n) rows).Pairwise (fun a b => b.1 ≤ a.1)) ∧
    (rows.length ≤ n.toNat → applyTopFilter (some n) rows = rows.reverse) := by
  have hne : ¬((n == 0) = true) := by
    simp only [beq_iff_eq]
    omega
  have hlt : -n < 0 := by omega
  have key : applyTopFilter (some n) rows = (rows.drop (rows.length - n.toNat)).reverse := by
    simp only [applyTopFilter, pySliceFrom, if_neg hne, if_pos hlt, neg_neg]
  refine ⟨?_, key, ?_, ?_⟩
  · rw [key, List.length_reverse, List.length_drop]
    omega
  · intro hsorted
    rw [key]
    exact List.pairwise_reverse.mpr
      (List.Pairwise.sublist (List.drop_sublist _ _) hsorted)
  · intro hlen
    rw [key, Nat.sub_eq_zero_of_le hlen, List.drop_zero]

/-- Witness for C4 at N = 2 on a three-row ascending list. -/
theorem claim_C4_top_selection_witness :
    (applyTopFilter (some 2) [(1, "a"), (2, "b"), (3, "c")]).length =
      min (Int.toNat 2) [(1, "a"), (2, "b"), (3, "c")].length ∧
    applyTopFilter (some 2) [(1, "a"), (2, "b"), (3, "c")] =
      ([(1, "a"), (2, "b"), (3, "c")].drop
        ([(1, "a"), (2, "b"), (3, "c")].length - Int.toNat 2)).reverse ∧
    ([(1, "a"), (2, "b"), (3, "c")].Pairwise (fun a b => a.1 ≤ b.1) →
      (applyTopFilter (some 2) [(1, "a"), (2, "b"), (3, "c")]).Pairwise
        (fun a b => b.1 ≤ a.1)) ∧
    ([(1, "a"), (2, "b"), (3, "c")].length ≤ Int.toNat 2 →
      applyTopFilter (some 2) [(1, "a"), (2, "b"), (3, "c")] =
        [(1, "a"), (2, "b"), (3, "c")].reverse) :=
  claim_C4_top_selection 2 (by decide) [(1, "a"), (2, "b"), (3, "c")]

/-- C10: a `--top` of 0 is falsy for `if args.top:`, so it applies no
selection and no reversal — the row list is passed through unchanged, exactly
as when the flag is absent, in both programs. -/
theorem claim_C10_top_zero (rows : List (Nat × String)) :
    applyTopFilter (some 0) rows = applyTopFilter none rows ∧
    applyTopFilter (some 0) rows = rows ∧
    (∀ (parseDate : String → Option Nat) (token : Option String) (a : ArgsEmoji)
       (chanResp : List (Except Unit ChanPage)) (histResp : List (Except Unit HistPage)),
       mainEmoji parseDate token { a with top := some 0 } chanResp histResp =
         mainEmoji parseDate token { a with top := none } chanResp histResp) ∧
    (∀ (parseDate : String → Option Nat) (token : Option String) (a : ArgsMsg)
       (prov : Provider) (chanResp : List (Except Unit ChanPage))
       (histResp : List (Except Unit HistPage)),
       mainMsg parseDate token { a with top := some 0 } prov chanResp histResp =
         mainMsg parseDate token { a with top := none } prov chanResp histResp) := by
  refine ⟨rfl, rfl, ?_, ?_⟩
  · intro parseDate token a chanResp histResp
    rfl
  · intro parseDate token a prov chanResp histResp
    rfl

theorem mainEmoji_failure (parseDate : String → Option Nat) (token : Option String)
    (a : ArgsEmoji) (chanResp : List (Except Unit ChanPage))
    (histResp : List (Except Unit HistPage))
    (h : parseDatesPair parseDate a.date_from a.date_to = none ∨
         optTruthy token = false ∨
         ListEmojis.get_channel_id chanResp a.channel_name = .notFound ∨
         ListEmojis.get_channel_id chanResp a.channel_name = .apiError ∨
         get_emoji_reactions histResp = none) :
    (mainEmoji parseDate token a chanResp histResp).exitCode = 1 ∧
    (mainEmoji parseDate token a chanResp histResp).stdout = [] := by
  cases hp : parseDatesPair parseDate a.date_from a.date_to with
  | none => simp [mainEmoji, hp]
  | some d =>
    cases ht : optTruthy token with
    | false => simp [mainEmoji, hp, ht]
    | true =>
      cases hres : ListEmojis.get_channel_id chanResp a.channel_name with
      | notFound => simp [mainEmoji, hp, ht, hres]
      | apiError => simp [mainEmoji, hp, ht, hres]
      | found cid =>
        have hh : get_emoji_reactions histResp = none := by
          rcases h with h | h | h | h | h
          · simp [hp] at h
          · simp [ht] at h
          · simp [hres] at h
          · simp [hres] at h
          · exact h
        by_cases hcid : (cid == "") = true
        · simp [mainEmoji, hp, ht, hres, hcid]
        · simp [mainEmoji, hp, ht, hres, hcid, hh]

theorem mainMsg_failure (parseDate : String → Option Nat) (token : Option String)
    (a : ArgsMsg) (prov : Provider) (chanResp : List (Except Unit ChanPage))
    (histResp : List (Except Unit HistPage))
    (h : parseDatesPair parseDate a.date_from a.date_to = none ∨
         optTruthy token = false ∨
         MsgCount.get_channel_id chanResp a.channel_name = .notFound ∨
         MsgCount.get_channel_id chanResp a.channel_name = .apiError ∨
         count_messages prov a.channel_name a.replies a.messages a.user histResp = none) :
    (mainMsg parseDate token a prov chanResp histResp).exitCode = 1 ∧
    (mainMsg parseDate token a prov chanResp histResp).stdout = [] := by
  cases hp : parseDatesPair parseDate a.date_from a.date_to with
  | none => simp [mainMsg, hp]
  | some d =>
    cases ht : optTruthy token with
    | false => simp [mainMsg, hp, ht]
    | true =>
      cases hres : MsgCount.get_channel_id chanResp a.channel_name with
      | notFound => simp [mainMsg, hp, ht, hres]
      | apiError => simp [mainMsg, hp, ht, hres]
      | found cid =>
        have hh : count_messages prov a.channel_name a.replies a.messages a.user
            histResp = none := by
          rcases h with h | h | h | h | h
          · simp [hp] at h
          · simp [ht] at h
          · simp [hres] at h
          · simp [hres] at h
          · exact h
        by_cases hcid : (cid == "") = true
        · simp [mainMsg, hp, ht, hres, hcid]
        · simp [mainMsg, hp, ht, hres, hcid, hh]

/-- C7: in either program, a malformed date string, a missing (or empty)
auth token, an unresolved channel name, or a provider error during channel
resolution or history pagination terminates the run with a non-zero exit
status and writes no report row to the output stream: every diagnostic goes
to the error stream, and no truncated report is emitted. -/
theorem claim_C7_failures_abort (parseDate : String → Option Nat)
    (token : Option String) (aE : ArgsEmoji) (aM : ArgsMsg) (prov : Provider)
    (crE crM : List (Except Unit ChanPage)) (hrE hrM : List (Except Unit HistPage))
    (hE : parseDatesPair parseDate aE.date_from aE.date_to = none ∨
          optTruthy token = false ∨
          ListEmojis.get_channel_id crE aE.channel_name = .notFound ∨
          ListEmojis.get_channel_id crE aE.channel_name = .apiError ∨
          get_emoji_reactions hrE = none)
    (hM : parseDatesPair parseDate aM.date_from aM.date_to = none ∨
          optTruthy token = false ∨
          MsgCount.get_channel_id crM aM.channel_name = .notFound ∨
          MsgCount.get_channel_id crM aM.channel_name = .apiError ∨
          count_messages prov aM.channel_name aM.replies aM.messages aM.user hrM = none) :
    (mainEmoji parseDate token aE crE hrE).exitCode ≠ 0 ∧
    (mainEmoji parseDate token aE crE hrE).stdout = [] ∧
    (mainMsg parseDate token aM prov crM hrM).exitCode ≠ 0 ∧
    (mainMsg parseDate token aM prov crM hrM).stdout = [] := by
  have h1 := mainEmoji_failure parseDate token aE crE hrE hE
  have h2 := mainMsg_failure parseDate token aM prov crM hrM hM
  exact ⟨by simp [h1.1], h1.2, by simp [h2.1], h2.2⟩

/-- Witness for C7: runs of both programs with the auth token absent. -/
theorem claim_C7_failures_abort_witness :
    (mainEmoji (fun _ => none) none ⟨"general", none, none, none⟩ [] []).exitCode ≠ 0 ∧
    (mainEmoji (fun _ => none) none ⟨"general", none, none, none⟩ [] []).stdout = [] ∧
    (mainMsg (fun _ => none) none ⟨"general", false, false, false, none, none, none⟩
      okProvider [] []).exitCode ≠ 0 ∧
    (mainMsg (fun _ => none) none ⟨"general", false, false, false, none, none, none⟩
      okProvider [] []).stdout = [] :=
  claim_C7_failures_abort (fun _ => none) none ⟨"general", none, none, none⟩
    ⟨"general", false, false, false, none, none, none⟩ okProvider [] [] [] []
    (Or.inr (Or.inl rfl)) (Or.inr (Or.inl rfl))
